import Mathlib

/-!
Shallow embedding of the risk-detection engine of
`src/scripts/risk_engine.py` (class `RiskEngine`) together with the part of
`src/scripts/alert_system.py` that the engine calls.  Python floats are
modelled as rationals; `datetime` timestamps as rationals (seconds);
`deque(maxlen=n)` as a list with FIFO eviction on append; a caught Python
exception as an explicit error value or an abort of the surrounding loop,
mirroring exactly where the source's `try`/`except` blocks sit.  The module
constants read from the environment at import time become parameters of the
functions that use them, with the source's defaults kept as named constants.
-/

namespace RiskEngine

/-- Risk tiers used both for the persisted `risk_level` tag and for alert
severities (`risk_engine.py` uses the string literals LOW/MEDIUM/HIGH/CRITICAL). -/
inductive RiskLevel where
  | LOW
  | MEDIUM
  | HIGH
  | CRITICAL
deriving DecidableEq, Repr

/-- The alert dictionary built by the checking functions
(`risk_engine.py` lines 72-80, 91-99, 117-125).  The human-readable
`message` string is omitted: it interpolates the same numbers that
`threshold_value` and `current_value` already carry. -/
structure AlertData where
  alert_type : String
  severity : RiskLevel
  entity_type : String
  entity_id : String
  threshold_value : ℚ
  current_value : ℚ
deriving DecidableEq, Repr

/-- Outcome of one exposure check (`check_client_exposure` /
`check_symbol_exposure`, lines 67-103): either the call raises
(`err`, possible only via the `ZeroDivisionError` in
`calculate_risk_level` when the threshold is zero), or it returns an alert
dict, or it returns `None` after writing the computed tier back to the
exposure store (`update_client_risk_level` / `update_symbol_risk_level`). -/
inductive CheckResult where
  | err
  | alert (a : AlertData)
  | write (tier : RiskLevel)
deriving DecidableEq, Repr

/-- A transaction row as the engine reads it (lines 265-296): only the
fields the engine touches are modelled. -/
structure Transaction where
  transaction_id : ℤ
  client_id : String
  symbol : String
  total_value : ℚ
deriving DecidableEq, Repr

/-- Default `CLIENT_EXPOSURE_THRESHOLD` (line 21). -/
def CLIENT_EXPOSURE_THRESHOLD : ℚ := 1000000

/-- Default `SYMBOL_EXPOSURE_THRESHOLD` (line 22). -/
def SYMBOL_EXPOSURE_THRESHOLD : ℚ := 500000

/-- Default `TRANSACTION_VELOCITY_THRESHOLD` (line 23). -/
def TRANSACTION_VELOCITY_THRESHOLD : ℤ := 10

/-- `ANOMALY_DETECTION_THRESHOLD` (line 24, default 3.0). -/
def ANOMALY_DETECTION_THRESHOLD : ℚ := 3

/-- `MONITORING_INTERVAL` (line 27, hard-coded 5 seconds). -/
def MONITORING_INTERVAL : ℚ := 5

/-- `VELOCITY_WINDOW` (line 28, 60 seconds). -/
def VELOCITY_WINDOW : ℚ := 60

/-- `ANOMALY_WINDOW` (line 29, 100 samples). -/
def ANOMALY_WINDOW : ℕ := 100

/-- Capacity of the per-key velocity deques, `deque(maxlen=100)` (lines 41-42). -/
def VELOCITY_CAPACITY : ℕ := 100

/-- `RiskEngine.calculate_risk_level` (lines 54-65).  Python float division
raises `ZeroDivisionError` for a zero threshold, modelled as `none`; for any
other threshold the tier is picked by the source's `if`/`elif` chain on
`ratio = exposure / threshold`. -/
def calculate_risk_level (exposure threshold : ℚ) : Option RiskLevel :=
  if threshold = 0 then none
  else
    let ratio := exposure / threshold
    some (if 1 ≤ ratio then RiskLevel.CRITICAL
          else if 0.75 ≤ ratio then RiskLevel.HIGH
          else if 0.5 ≤ ratio then RiskLevel.MEDIUM
          else RiskLevel.LOW)

/-- `RiskEngine.check_client_exposure` (lines 67-84), with the global
`CLIENT_EXPOSURE_THRESHOLD` as the parameter `threshold`.  The tier is
computed first (line 69, can raise); the alert is returned when the exposure
strictly exceeds the threshold (line 71), with severity CRITICAL only
strictly above 1.5x the threshold (line 74); otherwise the tier is written
back and `None` returned (lines 83-84). -/
def check_client_exposure (threshold : ℚ) (client_id : String) (exposure : ℚ) :
    CheckResult :=
  match calculate_risk_level exposure threshold with
  | none => CheckResult.err
  | some risk_level =>
    if threshold < exposure then
      CheckResult.alert
        { alert_type := "HIGH_CLIENT_EXPOSURE"
          severity := if threshold * 1.5 < exposure then RiskLevel.CRITICAL
                      else RiskLevel.HIGH
          entity_type := "CLIENT"
          entity_id := client_id
          threshold_value := threshold
          current_value := exposure }
    else CheckResult.write risk_level

/-- `RiskEngine.check_symbol_exposure` (lines 86-103), identical to the
client check up to the alert-type and entity-type strings and the
`SYMBOL_EXPOSURE_THRESHOLD` parameter. -/
def check_symbol_exposure (threshold : ℚ) (symbol : String) (exposure : ℚ) :
    CheckResult :=
  match calculate_risk_level exposure threshold with
  | none => CheckResult.err
  | some risk_level =>
    if threshold < exposure then
      CheckResult.alert
        { alert_type := "HIGH_SYMBOL_EXPOSURE"
          severity := if threshold * 1.5 < exposure then RiskLevel.CRITICAL
                      else RiskLevel.HIGH
          entity_type := "SYMBOL"
          entity_id := symbol
          threshold_value := threshold
          current_value := exposure }
    else CheckResult.write risk_level

/-- Whether an exposure check produced an alert (the spec's `triggered`
boolean: an alert dict was returned rather than `None` or an exception). -/
def triggered : CheckResult → Bool
  | CheckResult.alert _ => true
  | _ => false

/-- Alert severity carried by a check result, if any. -/
def severityOf : CheckResult → Option RiskLevel
  | CheckResult.alert a => some a.severity
  | _ => none

/-- Append to a `deque(maxlen=cap)`: the new element goes to the right and
the oldest element is evicted from the left once the capacity is exceeded. -/
def pushCap (cap : ℕ) (l : List ℚ) (v : ℚ) : List ℚ :=
  let grown := l ++ [v]
  if cap < grown.length then grown.drop (grown.length - cap) else grown

/-- Append to the global `transaction_values` window,
`deque(maxlen=ANOMALY_WINDOW)` (line 45). -/
def pushWindow (l : List ℚ) (v : ℚ) : List ℚ :=
  pushCap ANOMALY_WINDOW l v

/-- `np.mean` over the window (line 136). -/
def mean (w : List ℚ) : ℚ := w.sum / w.length

/-- Population variance, the square of `np.std` (line 137; numpy's default
`std` is the population standard deviation). -/
def popVar (w : List ℚ) : ℚ :=
  (w.map (fun x => (x - mean w) ^ 2)).sum / w.length

/-- `RiskEngine.detect_anomaly` (lines 129-156).  The source computes
`z_score = abs((value - mean) / std)` with `std = sqrt(popVar)` and compares
it against `ANOMALY_DETECTION_THRESHOLD` (3.0) and against 4; to stay inside
the rationals the comparisons are carried in squared form, which is exact:
for nonnegative `z` and `c`, `z > c` iff `z^2 > c^2`, and
`z^2 = (value - mean)^2 / popVar`.  Returns `none` below 30 samples
(line 131) or at zero standard deviation (line 139); otherwise the flagged
severity (MEDIUM below z = 4, HIGH at or above, line 148), or `none` when
the z-score does not exceed the sensitivity.  The alert payload fields other
than the severity (message, `threshold_value = mean + 3*std`) involve the
irrational `std` itself and no claim concerns them, so only the severity is
modelled. -/
def detect_anomaly (w : List ℚ) (value : ℚ) : Option RiskLevel :=
  if w.length < 30 then none
  else if popVar w = 0 then none
  else
    let zsq := (value - mean w) ^ 2 / popVar w
    if ANOMALY_DETECTION_THRESHOLD ^ 2 < zsq then
      some (if zsq < 4 ^ 2 then RiskLevel.MEDIUM else RiskLevel.HIGH)
    else none

/-- The anomaly step of `process_new_transactions` for one transaction
(lines 273-276 in source order): the transaction's `total_value` is appended
to `transaction_values` at line 273, and `detect_anomaly` is called at
line 276, i.e. on the window that already contains the value. -/
def anomalyStep (w : List ℚ) (value : ℚ) : List ℚ × Option RiskLevel :=
  let pushed := pushWindow w value
  (pushed, detect_anomaly pushed value)

/-- The count of stored timestamps strictly newer than the cutoff
(`sum(1 for tx_time in transactions if tx_time > cutoff)`, line 114). -/
def recent_count (txs : List ℚ) (cutoff : ℚ) : ℕ :=
  (txs.filter (fun t => decide (cutoff < t))).length

/-- `RiskEngine.check_transaction_velocity` (lines 105-127), with the global
`TRANSACTION_VELOCITY_THRESHOLD` as `velocityThreshold` and the call-time
`datetime.now()` as `now`.  Returns `None` below two stored timestamps
(line 108); otherwise counts timestamps newer than `now - VELOCITY_WINDOW`
and alerts when the count strictly exceeds the threshold (line 116). -/
def check_transaction_velocity (velocityThreshold : ℤ) (now : ℚ)
    (entity_type entity_id : String) (txs : List ℚ) : Option AlertData :=
  if txs.length < 2 then none
  else
    let cnt := recent_count txs (now - VELOCITY_WINDOW)
    if velocityThreshold < (cnt : ℤ) then
      some { alert_type := "HIGH_TRANSACTION_VELOCITY"
             severity := RiskLevel.HIGH
             entity_type := entity_type
             entity_id := entity_id
             threshold_value := (velocityThreshold : ℚ)
             current_value := (cnt : ℚ) }
    else none

/-- Outcome of `RiskEngine.create_alert` (lines 196-243) for one alert.
The argument `sink` is the outcome of the alert-sink insert (lines 199-227):
`some id` when the INSERT succeeds and yields the assigned id, `none` when
it raises.  The whole body sits in one `try`: the notification dispatcher
call `self.alert_system.send_alert(alert_data)` (line 230) and the
`alerts_generated` increment (line 231) run only after a successful insert;
an insert exception jumps straight to the handler at line 241, which logs
and returns `None`.  A dispatcher exception would also be caught there and
so never propagates into the engine's loop. -/
structure CreateAlertOutcome where
  dispatcher_sends : ℕ
  counter_increment : ℕ
  returned_id : Option ℤ
deriving DecidableEq, Repr

/-- `RiskEngine.create_alert` reduced to the observables the claims need:
how many times the dispatcher's send ran, how much `alerts_generated` grew,
and the returned alert id. -/
def create_alert (sink : Option ℤ) : CreateAlertOutcome :=
  match sink with
  | some i => { dispatcher_sends := 1, counter_increment := 1, returned_id := some i }
  | none => { dispatcher_sends := 0, counter_increment := 0, returned_id := none }

/-- The mutable fields of the `RiskEngine` instance that the claims touch
(`__init__`, lines 35-52).  `dispatched` counts the
`alert_system.send_alert` invocations made through `create_alert`; in the
engine model the alert-sink insert is taken to succeed, the failing-sink
case being settled separately on `create_alert` itself. -/
structure EngineState where
  last_transaction_id : ℤ
  transactions_processed : ℕ
  alerts_generated : ℕ
  dispatched : ℕ
  transaction_values : List ℚ
  client_transactions : String → List ℚ
  symbol_transactions : String → List ℚ

/-- The fresh engine state of `__init__`: cursor 0, empty trackers,
zero counters. -/
def initialState : EngineState :=
  { last_transaction_id := 0
    transactions_processed := 0
    alerts_generated := 0
    dispatched := 0
    transaction_values := []
    client_transactions := fun _ => []
    symbol_transactions := fun _ => [] }

/-- The body of the `for tx in transactions` loop of
`process_new_transactions` (lines 265-296) for one transaction that raises
no exception: record `now` into the client's and symbol's velocity deques
(lines 271-272), push `total_value` into the anomaly window and then score
it (lines 273-276, push first), run both velocity checks on the updated
deques (lines 281-293), create one alert per positive check, then increment
`transactions_processed` and advance the cursor to this transaction's id
(lines 295-296). -/
def processTx (velocityThreshold : ℤ) (now : ℚ) (st : EngineState)
    (tx : Transaction) : EngineState :=
  let clientDeque := pushCap VELOCITY_CAPACITY (st.client_transactions tx.client_id) now
  let symbolDeque := pushCap VELOCITY_CAPACITY (st.symbol_transactions tx.symbol) now
  let stepped := anomalyStep st.transaction_values tx.total_value
  let clientAlert := check_transaction_velocity velocityThreshold now "CLIENT" tx.client_id clientDeque
  let symbolAlert := check_transaction_velocity velocityThreshold now "SYMBOL" tx.symbol symbolDeque
  let newAlerts := (if stepped.2.isSome then 1 else 0)
    + (if clientAlert.isSome then 1 else 0)
    + (if symbolAlert.isSome then 1 else 0)
  { last_transaction_id := tx.transaction_id
    transactions_processed := st.transactions_processed + 1
    alerts_generated := st.alerts_generated + newAlerts
    dispatched := st.dispatched + newAlerts
    transaction_values := stepped.1
    client_transactions := fun k =>
      if k = tx.client_id then clientDeque else st.client_transactions k
    symbol_transactions := fun k =>
      if k = tx.symbol then symbolDeque else st.symbol_transactions k }

/-- The `for tx in transactions` loop (lines 265-296).  `raises tx` models a
Python exception thrown while handling `tx` (e.g. a malformed row field):
the single `try` wrapping the whole of `process_new_transactions`
(lines 247-299) means the first exception abandons the rest of the batch,
keeping the state accumulated so far; the exception is modelled as raised at
the start of the transaction's block, before any of its effects — the
cursor update is in any case the block's last statement. -/
def processLoop (velocityThreshold : ℤ) (now : ℚ)
    (raises : Transaction → Bool) :
    List Transaction → EngineState → EngineState
  | [], st => st
  | tx :: rest, st =>
    if raises tx then st
    else processLoop velocityThreshold now raises rest
      (processTx velocityThreshold now st tx)

/-- The transaction fetch (lines 250-263): all rows with id strictly above
the cursor.  The SQL `ORDER BY transaction_id` is modelled by keeping the
source list in ascending id order (a hypothesis of the theorems that need
it), which a filter preserves. -/
def fetchSince (source : List Transaction) (cursor : ℤ) : List Transaction :=
  source.filter (fun tx => decide (cursor < tx.transaction_id))

/-- `RiskEngine.process_new_transactions` (lines 245-299): fetch everything
past the cursor, then run the per-transaction loop; its `except` swallows
the exception after the loop has been abandoned. -/
def process_new_transactions (velocityThreshold : ℤ) (now : ℚ)
    (raises : Transaction → Bool) (source : List Transaction)
    (st : EngineState) : EngineState :=
  processLoop velocityThreshold now raises
    (fetchSince source st.last_transaction_id) st

/-- Alert bookkeeping of a successful `create_alert` call inside the
exposure sweep: one dispatcher send, one counter increment. -/
def bumpAlert (st : EngineState) : EngineState :=
  { st with alerts_generated := st.alerts_generated + 1
            dispatched := st.dispatched + 1 }

/-- One of the two row loops of `check_exposures` (lines 307-313 for
clients, 317-323 for symbols).  Returns the accumulated state and whether
the loop completed: an `err` from the check (zero threshold) is an uncaught
exception inside the function-level `try`, so it stops the sweep while the
alerts already created persist. -/
def checkRowsLoop (check : String → ℚ → CheckResult) :
    List (String × ℚ) → EngineState → EngineState × Bool
  | [], st => (st, true)
  | row :: rest, st =>
    match check row.1 row.2 with
    | CheckResult.err => (st, false)
    | CheckResult.alert _ => checkRowsLoop check rest (bumpAlert st)
    | CheckResult.write _ => checkRowsLoop check rest st

/-- `RiskEngine.check_exposures` (lines 301-326).  `clientsFetchOk` /
`symbolsFetchOk` model the two SELECTs over the exposure store; a failed
fetch, like a row-level exception, lands in the function's single `except`
(lines 325-326), which logs and returns — the cycle goes on. -/
def check_exposures (clientThreshold symbolThreshold : ℚ)
    (clientsFetchOk symbolsFetchOk : Bool)
    (clients symbols : List (String × ℚ)) (st : EngineState) : EngineState :=
  if clientsFetchOk then
    if (checkRowsLoop (check_client_exposure clientThreshold) clients st).2
        && symbolsFetchOk then
      (checkRowsLoop (check_symbol_exposure symbolThreshold) symbols
        (checkRowsLoop (check_client_exposure clientThreshold) clients st).1).1
    else (checkRowsLoop (check_client_exposure clientThreshold) clients st).1
  else st

/-- The external inputs of one iteration of `monitor_loop` (lines 385-410):
the wall-clock time, the current contents of the transaction source, the
per-transaction fault oracle, the exposure-store rows and the success of the
two exposure fetches. -/
structure CycleEnv where
  now : ℚ
  source : List Transaction
  raises : Transaction → Bool
  clients : List (String × ℚ)
  symbols : List (String × ℚ)
  clientsFetchOk : Bool
  symbolsFetchOk : Bool

/-- One iteration of `monitor_loop` (lines 385-410): process new
transactions, then check exposures, each with its own internal exception
handling.  The metrics snapshot taken every 10th iteration
(`update_risk_metrics`) only reads counters and external tables and writes
an external row, touching none of the modelled state, so it is omitted. -/
def runCycle (clientThreshold symbolThreshold : ℚ) (velocityThreshold : ℤ)
    (env : CycleEnv) (st : EngineState) : EngineState :=
  check_exposures clientThreshold symbolThreshold
    env.clientsFetchOk env.symbolsFetchOk env.clients env.symbols
    (process_new_transactions velocityThreshold env.now env.raises env.source st)

/-- Any number of consecutive monitor-loop iterations. -/
def runCycles (clientThreshold symbolThreshold : ℚ) (velocityThreshold : ℤ) :
    List CycleEnv → EngineState → EngineState
  | [], st => st
  | env :: rest, st =>
    runCycles clientThreshold symbolThreshold velocityThreshold rest
      (runCycle clientThreshold symbolThreshold velocityThreshold env st)

/-- The ids of the transactions of a batch that complete their loop body:
the longest prefix on which the fault oracle stays false. -/
def processedIds (raises : Transaction → Bool) : List Transaction → List ℤ
  | [] => []
  | tx :: rest =>
    if raises tx then []
    else tx.transaction_id :: processedIds raises rest

/-- The ids successfully processed during one cycle: the completed prefix of
the batch fetched past the cycle's starting cursor. -/
def cycleProcessedIds (env : CycleEnv) (st : EngineState) : List ℤ :=
  processedIds env.raises (fetchSince env.source st.last_transaction_id)

/-- The ids successfully processed across a run of cycles, in order. -/
def allProcessedIds (clientThreshold symbolThreshold : ℚ)
    (velocityThreshold : ℤ) : List CycleEnv → EngineState → List ℤ
  | [], _ => []
  | env :: rest, st =>
    cycleProcessedIds env st
      ++ allProcessedIds clientThreshold symbolThreshold velocityThreshold rest
        (runCycle clientThreshold symbolThreshold velocityThreshold env st)

/-- The configuration surface the spec names (thresholds and the monitoring
interval; lines 21-27). -/
structure EngineConfig where
  client_exposure_threshold : ℚ
  symbol_exposure_threshold : ℚ
  transaction_velocity_threshold : ℤ
  monitoring_interval : ℚ
deriving DecidableEq, Repr

/-- The startup path of `RiskEngine.run` (lines 412-427): connect to the
database, then enter `monitor_loop`.  No configuration value is inspected
anywhere before the loop starts — the thresholds are converted by
`float()`/`int()` at import (lines 21-24) and used as-is — so the only way
startup fails is the database connection raising. -/
def engineStarts (cfg : EngineConfig) (dbConnects : Bool) : Bool :=
  dbConnects

/-- The empty per-key tracker map, `defaultdict(lambda: deque(maxlen=100))`
(lines 41-42). -/
def emptyTracker : String → List ℚ := fun _ => []

/-- One `record` into a per-key tracker map: append the timestamp to the
key's bounded deque (lines 271-272 perform exactly this for the client and
symbol maps). -/
def record (m : String → List ℚ) (key : String) (t : ℚ) : String → List ℚ :=
  fun k => if k = key then pushCap VELOCITY_CAPACITY (m key) t else m k

/-- A whole interleaved sequence of `record` calls, applied in order. -/
def recordAll (m : String → List ℚ) : List (String × ℚ) → (String → List ℚ)
  | [] => m
  | call :: rest => recordAll (record m call.1 call.2) rest

/-- Concrete transaction used to exercise the cycle model. -/
def tx1 : Transaction :=
  { transaction_id := 1, client_id := "CLIENT_A", symbol := "AAPL", total_value := 10 }

/-- Concrete transaction used to exercise the cycle model. -/
def tx2 : Transaction :=
  { transaction_id := 2, client_id := "CLIENT_A", symbol := "AAPL", total_value := 12 }

/-- Concrete transaction used to exercise the cycle model. -/
def tx3 : Transaction :=
  { transaction_id := 3, client_id := "CLIENT_B", symbol := "TSLA", total_value := 9 }

/-- A fault oracle that raises exactly on the transaction with the given id. -/
def raisesOn (i : ℤ) : Transaction → Bool :=
  fun tx => decide (tx.transaction_id = i)

/-- A cycle whose first fetched transaction raises and whose exposure sweep
sees one client far above the default threshold. -/
def failingCycleEnv : CycleEnv :=
  { now := 1000
    source := [tx1, tx2]
    raises := raisesOn 1
    clients := [("BIG_CLIENT", 2000000)]
    symbols := []
    clientsFetchOk := true
    symbolsFetchOk := true }

/-- The same cycle with no fault, for contrast. -/
def cleanCycleEnv : CycleEnv :=
  { now := 1000
    source := [tx1, tx2]
    raises := fun _ => false
    clients := [("BIG_CLIENT", 2000000)]
    symbols := []
    clientsFetchOk := true
    symbolsFetchOk := true }

/-- First cycle of a two-cycle cursor scenario: three transactions arrive,
the third raises. -/
def cycleEnvA : CycleEnv :=
  { now := 1000
    source := [tx1, tx2, tx3]
    raises := raisesOn 3
    clients := []
    symbols := []
    clientsFetchOk := true
    symbolsFetchOk := true }

/-- Second cycle: the same source, no fault, and an exposure sweep whose
client fetch fails. -/
def cycleEnvB : CycleEnv :=
  { now := 1005
    source := [tx1, tx2, tx3]
    raises := fun _ => false
    clients := [("BIG_CLIENT", 2000000)]
    symbols := [("TSLA", 400000)]
    clientsFetchOk := false
    symbolsFetchOk := true }

/-- Concrete interleaved record calls for the velocity tracker. -/
def velocityCalls : List (String × ℚ) :=
  [("CLIENT_A", 10), ("CLIENT_B", 55), ("CLIENT_A", 70)]

/-! ## Theorems -/

/-- Helper: an exposure check with a nonzero threshold reduces to the alert
branch (strict excess) with the severity picked at 1.5x, or to a tier
write-back. -/
theorem check_client_exposure_pos (t : ℚ) (cid : String) (e : ℚ) (ht : t ≠ 0) :
    check_client_exposure t cid e =
      if t < e then
        CheckResult.alert
          { alert_type := "HIGH_CLIENT_EXPOSURE"
            severity := if t * 1.5 < e then RiskLevel.CRITICAL else RiskLevel.HIGH
            entity_type := "CLIENT"
            entity_id := cid
            threshold_value := t
            current_value := e }
      else
        CheckResult.write
          (if 1 ≤ e / t then RiskLevel.CRITICAL
           else if 0.75 ≤ e / t then RiskLevel.HIGH
           else if 0.5 ≤ e / t then RiskLevel.MEDIUM
           else RiskLevel.LOW) := by
  unfold check_client_exposure calculate_risk_level
  rw [if_neg ht]

/-- Helper: the symbol variant of `check_client_exposure_pos`. -/
theorem check_symbol_exposure_pos (t : ℚ) (sym : String) (e : ℚ) (ht : t ≠ 0) :
    check_symbol_exposure t sym e =
      if t < e then
        CheckResult.alert
          { alert_type := "HIGH_SYMBOL_EXPOSURE"
            severity := if t * 1.5 < e then RiskLevel.CRITICAL else RiskLevel.HIGH
            entity_type := "SYMBOL"
            entity_id := sym
            threshold_value := t
            current_value := e }
      else
        CheckResult.write
          (if 1 ≤ e / t then RiskLevel.CRITICAL
           else if 0.75 ≤ e / t then RiskLevel.HIGH
           else if 0.5 ≤ e / t then RiskLevel.MEDIUM
           else RiskLevel.LOW) := by
  unfold check_symbol_exposure calculate_risk_level
  rw [if_neg ht]

/-- C1 (counterexample): at an exposure exactly equal to a positive
threshold the ratio is exactly 1.0 and the exposure does not exceed 1.5x
the threshold, yet the classification is not the claimed HIGH: the check
returns no alert (triggered = false) and persists the tier CRITICAL
computed by `calculate_risk_level`'s `ratio >= 1.0` branch. -/
theorem exposure_boundary_counterexample :
    1 ≤ (1000000 : ℚ) / 1000000 ∧ (1000000 : ℚ) ≤ 1000000 * 1.5 ∧
    check_client_exposure 1000000 "CLIENT_001" 1000000
      = CheckResult.write RiskLevel.CRITICAL ∧
    triggered (check_client_exposure 1000000 "CLIENT_001" 1000000) = false := by
  refine ⟨by norm_num, by norm_num, ?_, ?_⟩
  · rw [check_client_exposure_pos 1000000 "CLIENT_001" 1000000 (by norm_num)]
    norm_num
  · rw [check_client_exposure_pos 1000000 "CLIENT_001" 1000000 (by norm_num)]
    norm_num [triggered]

/-- C1 (amended): for every positive threshold and exposure STRICTLY above
it, the check triggers (returns an alert), with severity HIGH when the
exposure is at most 1.5x the threshold and CRITICAL exactly when it
strictly exceeds 1.5x; in particular threshold 1,000,000 with exposure
1,250,000 yields a HIGH alert, i.e. (HIGH, triggered = true).  The original
claim's boundary case exposure = threshold (ratio exactly 1.0) is excluded:
there the code does not trigger and persists CRITICAL. -/
theorem exposure_alert_severity (cid : String) (e t : ℚ) (ht : 0 < t) (he : t < e) :
    triggered (check_client_exposure t cid e) = true ∧
    (e ≤ t * 1.5 →
      check_client_exposure t cid e = CheckResult.alert
        { alert_type := "HIGH_CLIENT_EXPOSURE", severity := RiskLevel.HIGH
          entity_type := "CLIENT", entity_id := cid
          threshold_value := t, current_value := e }) ∧
    (t * 1.5 < e →
      check_client_exposure t cid e = CheckResult.alert
        { alert_type := "HIGH_CLIENT_EXPOSURE", severity := RiskLevel.CRITICAL
          entity_type := "CLIENT", entity_id := cid
          threshold_value := t, current_value := e }) ∧
    check_client_exposure 1000000 cid 1250000 = CheckResult.alert
      { alert_type := "HIGH_CLIENT_EXPOSURE", severity := RiskLevel.HIGH
        entity_type := "CLIENT", entity_id := cid
        threshold_value := 1000000, current_value := 1250000 } := by
  have hmain := check_client_exposure_pos t cid e (ne_of_gt ht)
  rw [if_pos he] at hmain
  refine ⟨?_, ?_, ?_, ?_⟩
  · rw [hmain]; rfl
  · intro hle
    rw [hmain, if_neg (not_lt.mpr hle)]
  · intro hlt
    rw [hmain, if_pos hlt]
  · rw [check_client_exposure_pos 1000000 cid 1250000 (by norm_num)]
    rw [if_pos (by norm_num : (1000000 : ℚ) < 1250000)]
    rw [if_neg (by norm_num : ¬ ((1000000 : ℚ) * 1.5 < 1250000))]

/-- C1 (witness): the amended theorem applied at threshold 1,000,000 and
exposure 1,250,000. -/
theorem exposure_alert_severity_witness :
    ((0 : ℚ) < 1000000 ∧ (1000000 : ℚ) < 1250000) ∧
    (triggered (check_client_exposure 1000000 "CLIENT_001" 1250000) = true ∧
     ((1250000 : ℚ) ≤ 1000000 * 1.5 →
       check_client_exposure 1000000 "CLIENT_001" 1250000 = CheckResult.alert
         { alert_type := "HIGH_CLIENT_EXPOSURE", severity := RiskLevel.HIGH
           entity_type := "CLIENT", entity_id := "CLIENT_001"
           threshold_value := 1000000, current_value := 1250000 }) ∧
     ((1000000 : ℚ) * 1.5 < 1250000 →
       check_client_exposure 1000000 "CLIENT_001" 1250000 = CheckResult.alert
         { alert_type := "HIGH_CLIENT_EXPOSURE", severity := RiskLevel.CRITICAL
           entity_type := "CLIENT", entity_id := "CLIENT_001"
           threshold_value := 1000000, current_value := 1250000 }) ∧
     check_client_exposure 1000000 "CLIENT_001" 1250000 = CheckResult.alert
       { alert_type := "HIGH_CLIENT_EXPOSURE", severity := RiskLevel.HIGH
         entity_type := "CLIENT", entity_id := "CLIENT_001"
         threshold_value := 1000000, current_value := 1250000 }) :=
  ⟨⟨by norm_num, by norm_num⟩,
    exposure_alert_severity "CLIENT_001" 1250000 1000000 (by norm_num) (by norm_num)⟩

/-- C3 (counterexample): at an exposure exactly equal to the configured
threshold no exposure alert is generated: the symbol check at
exposure = threshold = 500,000 returns `None` after writing the tier
(triggered = false), because line 90 requires a strict excess. -/
theorem triggered_at_threshold_counterexample :
    check_symbol_exposure 500000 "AAPL" 500000
      = CheckResult.write RiskLevel.CRITICAL ∧
    triggered (check_symbol_exposure 500000 "AAPL" 500000) = false := by
  constructor
  · rw [check_symbol_exposure_pos 500000 "AAPL" 500000 (by norm_num)]
    norm_num
  · rw [check_symbol_exposure_pos 500000 "AAPL" 500000 (by norm_num)]
    norm_num [triggered]

/-- C3 (amended): for a positive threshold, an exposure alert is generated
iff the exposure STRICTLY exceeds the threshold, for both the client and
the symbol check; at exposure exactly equal to the threshold, triggered is
false. -/
theorem triggered_iff_strictly_exceeds (t : ℚ) (key : String) (e : ℚ) (ht : 0 < t) :
    (triggered (check_client_exposure t key e) = true ↔ t < e) ∧
    (triggered (check_symbol_exposure t key e) = true ↔ t < e) ∧
    triggered (check_client_exposure t key t) = false ∧
    triggered (check_symbol_exposure t key t) = false := by
  have ht0 : t ≠ 0 := ne_of_gt ht
  refine ⟨?_, ?_, ?_, ?_⟩
  · rw [check_client_exposure_pos t key e ht0]
    by_cases h : t < e
    · simp [if_pos h, triggered, h]
    · simp [if_neg h, triggered, h]
  · rw [check_symbol_exposure_pos t key e ht0]
    by_cases h : t < e
    · simp [if_pos h, triggered, h]
    · simp [if_neg h, triggered, h]
  · rw [check_client_exposure_pos t key t ht0, if_neg (lt_irrefl t)]
    rfl
  · rw [check_symbol_exposure_pos t key t ht0, if_neg (lt_irrefl t)]
    rfl

/-- C3 (witness): the amended theorem applied at threshold 500,000 and
exposure 600,000. -/
theorem triggered_iff_strictly_exceeds_witness :
    (0 : ℚ) < 500000 ∧
    ((triggered (check_client_exposure 500000 "AAPL" 600000) = true ↔ (500000 : ℚ) < 600000) ∧
     (triggered (check_symbol_exposure 500000 "AAPL" 600000) = true ↔ (500000 : ℚ) < 600000) ∧
     triggered (check_client_exposure 500000 "AAPL" 500000) = false ∧
     triggered (check_symbol_exposure 500000 "AAPL" 500000) = false) :=
  ⟨by norm_num, triggered_iff_strictly_exceeds 500000 "AAPL" 600000 (by norm_num)⟩

/-- C5 (counterexample): a configuration with a zero client threshold, a
negative symbol threshold, a zero velocity threshold and a zero monitoring
interval does not prevent startup: `run` (lines 412-427) never inspects the
configuration, so with a working database connection the engine starts. -/
theorem startup_accepts_invalid_config :
    engineStarts
      { client_exposure_threshold := 0
        symbol_exposure_threshold := -1
        transaction_velocity_threshold := 0
        monitoring_interval := 0 } true = true := rfl

/-- C5 (amended): the engine performs no configuration validation at
startup: whether it starts depends only on the database connection, for
every configuration, valid or not.  A zero threshold is not rejected at
startup; it instead makes each exposure check raise at evaluation time
(`ZeroDivisionError` in `calculate_risk_level`), which the per-cycle
handler catches. -/
theorem startup_ignores_configuration (cfg : EngineConfig) (db : Bool) :
    engineStarts cfg db = db ∧
    check_client_exposure 0 "CLIENT_001" 1 = CheckResult.err :=
  ⟨rfl, rfl⟩

/-- C6 (counterexample): when the alert-sink insert fails, the notification
dispatcher's send is not invoked at all (0 times, not the claimed 1): the
send at line 230 sits after the insert inside the same `try`, so the insert
exception jumps straight to the handler.  When the insert succeeds the send
runs exactly once. -/
theorem dispatcher_skipped_on_sink_failure :
    (create_alert none).dispatcher_sends = 0 ∧
    (create_alert (some 7)).dispatcher_sends = 1 :=
  ⟨rfl, rfl⟩

/-- C6 (amended): per triggering evaluation, the dispatcher's send is
invoked exactly once when the alert-sink write succeeds and zero times when
it fails — the invocation is dependent on, not independent of, sink
success; the send count always matches the `alerts_generated` increment. -/
theorem dispatcher_send_iff_sink_success (sink : Option ℤ) :
    ((create_alert sink).dispatcher_sends = 1 ↔ sink.isSome = true) ∧
    (create_alert sink).dispatcher_sends = (create_alert sink).counter_increment := by
  cases sink <;> simp [create_alert]

/-- Helper: a window of equal samples has zero population variance. -/
theorem popVar_replicate (n : ℕ) (a : ℚ) : popVar (List.replicate n a) = 0 := by
  by_cases hn : n = 0
  · subst hn
    simp [popVar]
  · have hmean : mean (List.replicate n a) = a := by
      rw [mean, List.sum_replicate, List.length_replicate, nsmul_eq_mul]
      exact mul_div_cancel_left₀ a (Nat.cast_ne_zero.mpr hn)
    simp [popVar, hmean, List.map_replicate, List.sum_replicate]

/-- C8 (confirmed): `detect_anomaly` returns no result whenever the window
holds fewer than 30 samples (line 131) or the population standard deviation
is zero (line 139, equivalently zero population variance) — regardless of
the incoming value.  The division computing the z-score sits syntactically
after both guards, so it is reached only with a nonzero divisor: no
division by zero occurs. -/
theorem detect_anomaly_guards (w : List ℚ) (v : ℚ)
    (h : w.length < 30 ∨ popVar w = 0) :
    detect_anomaly w v = none := by
  unfold detect_anomaly
  rcases h with h | h
  · rw [if_pos h]
  · by_cases hl : w.length < 30
    · rw [if_pos hl]
    · rw [if_neg hl, if_pos h]

/-- C8 (witness): a 30-sample window of equal values has zero variance, so
even an extreme incoming value produces no result. -/
theorem detect_anomaly_guards_witness :
    ((List.replicate 30 (5 : ℚ)).length < 30 ∨ popVar (List.replicate 30 (5 : ℚ)) = 0) ∧
    detect_anomaly (List.replicate 30 (5 : ℚ)) 1000000 = none :=
  ⟨Or.inr (popVar_replicate 30 5),
    detect_anomaly_guards _ _ (Or.inr (popVar_replicate 30 5))⟩

/-- C10 (confirmed): with fewer than two stored timestamps the velocity
check returns `None` (line 108) before the recent count is ever compared to
the threshold — even for a threshold, such as 0, that the count of recent
timestamps would exceed. -/
theorem velocity_below_two_samples (velocityThreshold : ℤ) (now : ℚ)
    (entity_type entity_id : String) (txs : List ℚ) (h : txs.length < 2) :
    check_transaction_velocity velocityThreshold now entity_type entity_id txs
      = none := by
  unfold check_transaction_velocity
  rw [if_pos h]

/-- C10 (witness): one recent timestamp and threshold 0 — the recent count
1 strictly exceeds the threshold, yet no alert is returned. -/
theorem velocity_below_two_samples_witness :
    [(100 : ℚ)].length < 2 ∧
    (0 : ℤ) < (recent_count [(100 : ℚ)] (100 - VELOCITY_WINDOW) : ℤ) ∧
    check_transaction_velocity 0 100 "CLIENT" "CLIENT_A" [(100 : ℚ)] = none :=
  ⟨by decide,
    by norm_num [recent_count, VELOCITY_WINDOW, List.filter_cons],
    velocity_below_two_samples 0 100 "CLIENT" "CLIENT_A" [(100 : ℚ)] (by decide)⟩

/-- C2 (counterexample): the score-then-push ordering fails on the code.
With a window of 30 zeros and incoming value 100, score-then-push would
evaluate against the 30 zeros — zero variance, hence no result — but the
code (lines 273-276) appends the value first and then scores it against the
31-sample window that contains it, yielding a flagged anomaly of severity
HIGH (z-score squared = 30 > 9). -/
theorem anomaly_order_counterexample :
    detect_anomaly (List.replicate 30 (0 : ℚ)) 100 = none ∧
    (anomalyStep (List.replicate 30 (0 : ℚ)) 100).2 = some RiskLevel.HIGH := by
  have hpush : pushWindow (List.replicate 30 (0 : ℚ)) 100
      = List.replicate 30 (0 : ℚ) ++ [100] := rfl
  have hlen : (List.replicate 30 (0 : ℚ) ++ [100]).length = 31 := by simp
  have hmean : mean (List.replicate 30 (0 : ℚ) ++ [100]) = 100 / 31 := by
    rw [mean, List.sum_append, List.sum_replicate, hlen]
    norm_num
  have hvar : popVar (List.replicate 30 (0 : ℚ) ++ [100]) = 300000 / 961 := by
    rw [popVar, hlen, List.map_append, List.map_replicate, List.sum_append,
      List.sum_replicate]
    simp only [hmean, List.map_cons, List.map_nil, List.sum_cons, List.sum_nil]
    norm_num
  constructor
  · exact detect_anomaly_guards _ _ (Or.inr (popVar_replicate 30 0))
  · show detect_anomaly (pushWindow (List.replicate 30 (0 : ℚ)) 100) 100
        = some RiskLevel.HIGH
    rw [hpush]
    unfold detect_anomaly
    rw [hlen, if_neg (by norm_num : ¬ (31 < 30)), hvar]
    rw [if_neg (by norm_num : ¬ ((300000 : ℚ) / 961 = 0))]
    simp only [hmean]
    rw [if_pos (by norm_num [ANOMALY_DETECTION_THRESHOLD] :
      ANOMALY_DETECTION_THRESHOLD ^ 2 < ((100 : ℚ) - 100 / 31) ^ 2 / (300000 / 961))]
    rw [if_neg (by norm_num :
      ¬ (((100 : ℚ) - 100 / 31) ^ 2 / (300000 / 961) < 4 ^ 2))]

/-- C2 (amended): for every transaction processed in a cycle, the anomaly
z-score is computed against the window state that ALREADY contains the
transaction's own `total_value` (push-then-score): the value is appended at
line 273 and `detect_anomaly` runs at line 276 on the updated window, of
which the value is a member — it does contribute to the mean and standard
deviation used for its own z-score. -/
theorem anomaly_push_then_score (w : List ℚ) (v : ℚ) :
    (anomalyStep w v).2 = detect_anomaly (pushWindow w v) v ∧
    v ∈ (anomalyStep w v).1 := by
  constructor
  · rfl
  · show v ∈ pushWindow w v
    unfold pushWindow pushCap
    by_cases h : ANOMALY_WINDOW < (w ++ [v]).length
    · rw [if_pos h]
      have hlen : (w ++ [v]).length - ANOMALY_WINDOW ≤ w.length := by
        simp only [List.length_append, List.length_singleton, ANOMALY_WINDOW]
        omega
      rw [List.drop_append_of_le_length hlen]
      exact List.mem_append_right _ (List.mem_singleton_self v)
    · rw [if_neg h]
      exact List.mem_append_right _ (List.mem_singleton_self v)

/-- Helper: as long as the accumulated deque plus the pending pushes fit in
the capacity, folding `pushCap` is a plain append (no eviction). -/
theorem foldl_pushCap_append :
    ∀ (l acc : List ℚ), acc.length + l.length ≤ VELOCITY_CAPACITY →
      l.foldl (pushCap VELOCITY_CAPACITY) acc = acc ++ l := by
  intro l
  induction l with
  | nil => intro acc _; simp
  | cons x xs ih =>
    intro acc h
    rw [List.foldl_cons]
    have hx : pushCap VELOCITY_CAPACITY acc x = acc ++ [x] := by
      unfold pushCap
      rw [if_neg]
      simp only [List.length_append, List.length_singleton, VELOCITY_CAPACITY]
      simp only [List.length_cons, VELOCITY_CAPACITY] at h
      omega
    rw [hx, ih]
    · simp
    · simp only [List.length_append, List.length_singleton]
      simp only [List.length_cons] at h
      omega

/-- Helper: the tracker map after an interleaved sequence of `record` calls
holds, at each key, exactly the fold of that key's own timestamps — other
keys' records do not touch it. -/
theorem recordAll_key :
    ∀ (calls : List (String × ℚ)) (m : String → List ℚ) (key : String),
      recordAll m calls key
        = ((calls.filter (fun c => decide (c.1 = key))).map Prod.snd).foldl
            (pushCap VELOCITY_CAPACITY) (m key) := by
  intro calls
  induction calls with
  | nil => intro m key; rfl
  | cons c rest ih =>
    intro m key
    rw [recordAll, ih]
    by_cases hk : c.1 = key
    · subst hk
      simp [record, List.filter_cons]
    · simp [record, hk, Ne.symm hk, List.filter_cons]

/-- C7 (confirmed): for every entity key and cutoff, the velocity count
(line 114) over the tracker state produced by any interleaved sequence of
record calls equals the exact number of timestamps recorded for that key
that are strictly greater than the cutoff, provided the key's total records
do not exceed the deque capacity of 100 (no eviction, hence no
undercount). -/
theorem velocity_count_exact (calls : List (String × ℚ)) (key : String)
    (cutoff : ℚ)
    (h : (calls.filter (fun c => decide (c.1 = key))).length ≤ VELOCITY_CAPACITY) :
    recent_count (recordAll emptyTracker calls key) cutoff
      = (((calls.filter (fun c => decide (c.1 = key))).map Prod.snd).filter
          (fun ts => decide (cutoff < ts))).length := by
  rw [recordAll_key, foldl_pushCap_append]
  · simp [emptyTracker, recent_count]
  · simpa [emptyTracker] using h

/-- C7 (witness): three interleaved record calls, two of them for
CLIENT_A; with cutoff 50, exactly one of CLIENT_A's timestamps (70) is
counted. -/
theorem velocity_count_exact_witness :
    (velocityCalls.filter (fun c => decide (c.1 = "CLIENT_A"))).length
        ≤ VELOCITY_CAPACITY ∧
    recent_count (recordAll emptyTracker velocityCalls "CLIENT_A") 50
      = (((velocityCalls.filter (fun c => decide (c.1 = "CLIENT_A"))).map
            Prod.snd).filter (fun ts => decide ((50 : ℚ) < ts))).length :=
  ⟨by decide, velocity_count_exact velocityCalls "CLIENT_A" 50 (by decide)⟩

/-- Helper: folding `max` never goes below the initial value. -/
theorem le_foldl_max : ∀ (l : List ℤ) (c : ℤ), c ≤ l.foldl max c := by
  intro l
  induction l with
  | nil => intro c; exact le_refl c
  | cons x xs ih => intro c; exact le_trans (le_max_left c x) (ih (max c x))

/-- Helper: a row sweep never touches the cursor — only alert counters. -/
theorem checkRowsLoop_cursor (check : String → ℚ → CheckResult) :
    ∀ (rows : List (String × ℚ)) (st : EngineState),
      ((checkRowsLoop check rows st).1).last_transaction_id
        = st.last_transaction_id := by
  intro rows
  induction rows with
  | nil => intro st; rfl
  | cons r rest ih =>
    intro st
    cases h : check r.1 r.2 with
    | err => simp [checkRowsLoop, h]
    | alert a => simp [checkRowsLoop, h, ih, bumpAlert]
    | write tier => simp [checkRowsLoop, h, ih]

/-- Helper: a row sweep never touches the processed-transactions counter. -/
theorem checkRowsLoop_processed (check : String → ℚ → CheckResult) :
    ∀ (rows : List (String × ℚ)) (st : EngineState),
      ((checkRowsLoop check rows st).1).transactions_processed
        = st.transactions_processed := by
  intro rows
  induction rows with
  | nil => intro st; rfl
  | cons r rest ih =>
    intro st
    cases h : check r.1 r.2 with
    | err => simp [checkRowsLoop, h]
    | alert a => simp [checkRowsLoop, h, ih, bumpAlert]
    | write tier => simp [checkRowsLoop, h, ih]

/-- Helper: the exposure sweep — succeed, fail or abort mid-way — never
changes the cursor. -/
theorem check_exposures_cursor (cT sT : ℚ) (cOk sOk : Bool)
    (clients symbols : List (String × ℚ)) (st : EngineState) :
    (check_exposures cT sT cOk sOk clients symbols st).last_transaction_id
      = st.last_transaction_id := by
  unfold check_exposures
  split
  · split
    · rw [checkRowsLoop_cursor, checkRowsLoop_cursor]
    · rw [checkRowsLoop_cursor]
  · rfl

/-- Helper: the exposure sweep never changes the processed-transactions
counter. -/
theorem check_exposures_processed (cT sT : ℚ) (cOk sOk : Bool)
    (clients symbols : List (String × ℚ)) (st : EngineState) :
    (check_exposures cT sT cOk sOk clients symbols st).transactions_processed
      = st.transactions_processed := by
  unfold check_exposures
  split
  · split
    · rw [checkRowsLoop_processed, checkRowsLoop_processed]
    · rw [checkRowsLoop_processed]
  · rfl

/-- Helper: over a batch of strictly increasing ids all above the starting
cursor, the loop leaves the cursor at the running maximum (equivalently the
last) of the successfully processed ids, or where it started if the first
transaction already raises. -/
theorem processLoop_cursor (vT : ℤ) (now : ℚ) (raises : Transaction → Bool) :
    ∀ (txs : List Transaction) (st : EngineState),
      (∀ tx ∈ txs, st.last_transaction_id < tx.transaction_id) →
      txs.Pairwise (fun a b => a.transaction_id < b.transaction_id) →
      (processLoop vT now raises txs st).last_transaction_id
        = (processedIds raises txs).foldl max st.last_transaction_id := by
  intro txs
  induction txs with
  | nil => intro st _ _; rfl
  | cons tx rest ih =>
    intro st hmem hp
    obtain ⟨hhd, htl⟩ := List.pairwise_cons.mp hp
    cases hr : raises tx with
    | true => simp [processLoop, processedIds, hr]
    | false =>
      simp only [processLoop, processedIds, hr, Bool.false_eq_true, if_false]
      rw [List.foldl_cons,
        max_eq_right (le_of_lt (hmem tx (List.mem_cons_self _ _)))]
      exact ih (processTx vT now st tx) (fun t ht => hhd t ht) htl

/-- Helper: a cycle leaves the cursor at the running maximum of the ids it
successfully processed, starting from the incoming cursor. -/
theorem runCycle_cursor (cT sT : ℚ) (vT : ℤ) (env : CycleEnv) (st : EngineState)
    (h : env.source.Pairwise (fun a b => a.transaction_id < b.transaction_id)) :
    (runCycle cT sT vT env st).last_transaction_id
      = (cycleProcessedIds env st).foldl max st.last_transaction_id := by
  unfold runCycle
  rw [check_exposures_cursor]
  unfold process_new_transactions cycleProcessedIds
  refine processLoop_cursor vT env.now env.raises _ st ?_ ?_
  · intro tx htx
    exact of_decide_eq_true (List.mem_filter.mp htx).2
  · exact List.Pairwise.sublist (List.filter_sublist _) h

/-- Helper: across any run of cycles over sources in ascending id order,
the cursor ends at the running maximum of all successfully processed ids. -/
theorem runCycles_cursor (cT sT : ℚ) (vT : ℤ) :
    ∀ (envs : List CycleEnv) (st : EngineState),
      (∀ env ∈ envs,
        env.source.Pairwise (fun a b => a.transaction_id < b.transaction_id)) →
      (runCycles cT sT vT envs st).last_transaction_id
        = (allProcessedIds cT sT vT envs st).foldl max st.last_transaction_id := by
  intro envs
  induction envs with
  | nil => intro st _; rfl
  | cons env rest ih =>
    intro st hs
    simp only [runCycles, allProcessedIds]
    rw [ih _ (fun e he => hs e (List.mem_cons_of_mem _ he))]
    rw [List.foldl_append]
    rw [runCycle_cursor cT sT vT env st (hs env (List.mem_cons_self _ _))]

/-- C9 (confirmed): starting from the fresh engine state (cursor 0), after
any number of cycles over sources with strictly increasing transaction ids
the cursor equals the maximum id successfully processed (the `max`-fold of
all completed transaction ids, 0 if none); the cursor never decreases
across a cycle; and the exposure sweep — including any of its failure
modes — leaves the cursor unchanged. -/
theorem cursor_monotone_and_exact (cT sT : ℚ) (vT : ℤ)
    (envs : List CycleEnv)
    (hs : ∀ env ∈ envs,
      env.source.Pairwise (fun a b => a.transaction_id < b.transaction_id))
    (env2 : CycleEnv) (st2 : EngineState)
    (h2 : env2.source.Pairwise (fun a b => a.transaction_id < b.transaction_id))
    (cOk sOk : Bool) (clients symbols : List (String × ℚ)) (st3 : EngineState) :
    (runCycles cT sT vT envs initialState).last_transaction_id
      = (allProcessedIds cT sT vT envs initialState).foldl max 0 ∧
    st2.last_transaction_id ≤ (runCycle cT sT vT env2 st2).last_transaction_id ∧
    (check_exposures cT sT cOk sOk clients symbols st3).last_transaction_id
      = st3.last_transaction_id := by
  refine ⟨?_, ?_, check_exposures_cursor cT sT cOk sOk clients symbols st3⟩
  · exact runCycles_cursor cT sT vT envs initialState hs
  · rw [runCycle_cursor cT sT vT env2 st2 h2]
    exact le_foldl_max _ _

/-- C9 (witness): two cycles over the same three-transaction source, the
first aborting at id 3, the second completing it with a failed client
exposure fetch; the theorem applies with the hypotheses checked
concretely. -/
theorem cursor_monotone_and_exact_witness :
    ((∀ env ∈ [cycleEnvA, cycleEnvB],
        env.source.Pairwise (fun a b => a.transaction_id < b.transaction_id)) ∧
      cycleEnvB.source.Pairwise (fun a b => a.transaction_id < b.transaction_id)) ∧
    ((runCycles 1000000 500000 10 [cycleEnvA, cycleEnvB] initialState).last_transaction_id
        = (allProcessedIds 1000000 500000 10 [cycleEnvA, cycleEnvB] initialState).foldl max 0 ∧
      initialState.last_transaction_id
        ≤ (runCycle 1000000 500000 10 cycleEnvB initialState).last_transaction_id ∧
      (check_exposures 1000000 500000 false true
          [("BIG_CLIENT", 2000000)] [("TSLA", 400000)] initialState).last_transaction_id
        = initialState.last_transaction_id) :=
  ⟨⟨by decide, by decide⟩,
    cursor_monotone_and_exact 1000000 500000 10 [cycleEnvA, cycleEnvB] (by decide)
      cycleEnvB initialState (by decide) false true
      [("BIG_CLIENT", 2000000)] [("TSLA", 400000)] initialState⟩

/-- Helper: the first raising transaction abandons the whole rest of the
batch: the loop's result over a clean prefix, a raising transaction and any
tail equals its result over the clean prefix alone. -/
theorem processLoop_abort (vT : ℤ) (now : ℚ) (raises : Transaction → Bool)
    (tx : Transaction) (rest : List Transaction) (htx : raises tx = true) :
    ∀ (pre : List Transaction) (st : EngineState),
      (∀ t ∈ pre, raises t = false) →
      processLoop vT now raises (pre ++ tx :: rest) st
        = processLoop vT now raises pre st := by
  intro pre
  induction pre with
  | nil => intro st _; simp [processLoop, htx]
  | cons p ps ih =>
    intro st hpre
    have hp : raises p = false := hpre p (List.mem_cons_self _ _)
    simp only [List.cons_append, processLoop, hp, Bool.false_eq_true, if_false]
    exact ih _ (fun t ht => hpre t (List.mem_cons_of_mem _ ht))

/-- Helper: a loop over a batch with no raising transaction processes all
of it: the counter grows by the batch length. -/
theorem processLoop_count (vT : ℤ) (now : ℚ) (raises : Transaction → Bool) :
    ∀ (txs : List Transaction) (st : EngineState),
      (∀ tx ∈ txs, raises tx = false) →
      (processLoop vT now raises txs st).transactions_processed
        = st.transactions_processed + txs.length := by
  intro txs
  induction txs with
  | nil => intro st _; simp [processLoop]
  | cons tx rest ih =>
    intro st h
    have h0 : raises tx = false := h tx (List.mem_cons_self _ _)
    simp only [processLoop, h0, Bool.false_eq_true, if_false]
    rw [ih (processTx vT now st tx) (fun t ht => h t (List.mem_cons_of_mem _ ht))]
    simp [processTx]
    omega

/-- C4 (amended): if processing one transaction of a fetched batch raises,
that transaction AND every remaining transaction of the batch are skipped
for the current cycle — the state is exactly the state after the clean
prefix, because the single `try` of `process_new_transactions` wraps the
whole loop; the cycle's subsequent step (the exposure sweep) still runs on
that state.  The skipped transactions stay beyond the cursor and are
refetched next cycle. -/
theorem batch_abort_on_error (vT : ℤ) (now : ℚ) (raises : Transaction → Bool)
    (pre : List Transaction) (tx : Transaction) (rest : List Transaction)
    (st : EngineState) (cT sT : ℚ) (env : CycleEnv)
    (hpre : ∀ t ∈ pre, raises t = false) (htx : raises tx = true) :
    processLoop vT now raises (pre ++ tx :: rest) st
      = processLoop vT now raises pre st ∧
    runCycle cT sT vT env st
      = check_exposures cT sT env.clientsFetchOk env.symbolsFetchOk
          env.clients env.symbols
          (process_new_transactions vT env.now env.raises env.source st) :=
  ⟨processLoop_abort vT now raises tx rest htx pre st hpre, rfl⟩

/-- C4 (witness): the amended theorem applied to the batch
`[tx1] ++ tx2 :: [tx3]` with the oracle raising exactly on id 2. -/
theorem batch_abort_on_error_witness :
    ((∀ t ∈ [tx1], raisesOn 2 t = false) ∧ raisesOn 2 tx2 = true) ∧
    (processLoop 10 1000 (raisesOn 2) ([tx1] ++ tx2 :: [tx3]) initialState
        = processLoop 10 1000 (raisesOn 2) [tx1] initialState ∧
      runCycle 1000000 500000 10 failingCycleEnv initialState
        = check_exposures 1000000 500000
            failingCycleEnv.clientsFetchOk failingCycleEnv.symbolsFetchOk
            failingCycleEnv.clients failingCycleEnv.symbols
            (process_new_transactions 10 failingCycleEnv.now
              failingCycleEnv.raises failingCycleEnv.source initialState)) :=
  ⟨⟨by decide, by decide⟩,
    batch_abort_on_error 10 1000 (raisesOn 2) [tx1] tx2 [tx3] initialState
      1000000 500000 failingCycleEnv (by decide) (by decide)⟩

/-- C4 (counterexample): a two-transaction batch whose first transaction
raises.  The claim says the second is still processed in the same cycle;
in fact the cycle processes zero transactions and leaves the cursor at 0 —
while the exposure sweep still runs (one alert is generated) and, had no
transaction raised, both transactions would have been processed. -/
theorem batch_abort_counterexample :
    (runCycle 1000000 500000 10 failingCycleEnv initialState).transactions_processed = 0 ∧
    (runCycle 1000000 500000 10 failingCycleEnv initialState).last_transaction_id = 0 ∧
    (runCycle 1000000 500000 10 failingCycleEnv initialState).alerts_generated = 1 ∧
    (runCycle 1000000 500000 10 cleanCycleEnv initialState).transactions_processed = 2 := by
  have hrow : check_client_exposure 1000000 "BIG_CLIENT" 2000000 = CheckResult.alert
      { alert_type := "HIGH_CLIENT_EXPOSURE", severity := RiskLevel.CRITICAL
        entity_type := "CLIENT", entity_id := "BIG_CLIENT"
        threshold_value := 1000000, current_value := 2000000 } := by
    rw [check_client_exposure_pos 1000000 "BIG_CLIENT" 2000000 (by norm_num)]
    rw [if_pos (by norm_num : (1000000 : ℚ) < 2000000)]
    rw [if_pos (by norm_num : (1000000 : ℚ) * 1.5 < 2000000)]
  have hbatch : process_new_transactions 10 1000 (raisesOn 1) [tx1, tx2] initialState
      = initialState := rfl
  have hcycle : runCycle 1000000 500000 10 failingCycleEnv initialState
      = bumpAlert initialState := by
    show check_exposures 1000000 500000 true true [("BIG_CLIENT", (2000000 : ℚ))] []
        (process_new_transactions 10 1000 (raisesOn 1) [tx1, tx2] initialState)
      = bumpAlert initialState
    rw [hbatch]
    simp [check_exposures, checkRowsLoop, hrow]
  have hclean : (runCycle 1000000 500000 10 cleanCycleEnv initialState).transactions_processed = 2 := by
    show (check_exposures 1000000 500000 true true [("BIG_CLIENT", (2000000 : ℚ))] []
        (process_new_transactions 10 1000 (fun _ => false) [tx1, tx2] initialState)).transactions_processed = 2
    rw [check_exposures_processed]
    show (processLoop 10 1000 (fun _ => false) [tx1, tx2] initialState).transactions_processed = 2
    rw [processLoop_count 10 1000 (fun _ => false) [tx1, tx2] initialState (fun _ _ => rfl)]
    rfl
  refine ⟨?_, ?_, ?_, hclean⟩
  · rw [hcycle]; rfl
  · rw [hcycle]; rfl
  · rw [hcycle]; rfl

end RiskEngine
